import Mathlib

/-!
Shallow embedding of the timeseries-mock generator (src/app.py): the
model-composition compiler (_parse_component, _parse_structure,
_parse_composite, _parse_observations, parse_configuration), the message
builder (build_message) and the anomaly-injected simulation loop in main.

Machine floats are modelled as rationals. Calls to the process-wide random
source random.random() are modelled as explicit draw arguments in [0, 1).
The single multivariate-normal sampling of the initial state
(mvn(m0, C0).rvs()) is modelled as an explicit sampler argument applied to
the prior mean and covariance. Fallible code returns Except String.
-/

namespace TimeseriesMock

/-- Matrices (numpy 2-D arrays) are modelled as row lists of rationals. -/
abbrev Mat := List (List ℚ)

/-- np.identity n / np.eye n: the n x n identity matrix. -/
def identityMatrix (n : ℕ) : Mat :=
  (List.range n).map (fun i => (List.range n).map (fun j => if i = j then (1 : ℚ) else 0))

/-- Elementwise scalar multiplication of a matrix (numpy id * w broadcasting). -/
def scalarMul (c : ℚ) (M : Mat) : Mat :=
  M.map (fun row => row.map (fun x => c * x))

/-- Block-diagonal combination of two matrices: off-diagonal blocks are zero. -/
def blockDiag (A B : Mat) : Mat :=
  A.map (fun row => row ++ List.replicate B.length (0 : ℚ))
    ++ B.map (fun row => List.replicate A.length (0 : ℚ) ++ row)

/-- Block diagonal of a list of matrices, laid out in list order. -/
def blockDiagAll : List Mat → Mat
  | [] => []
  | A :: rest => blockDiag A (blockDiagAll rest)

/-- Modelled from the spec: pssm.structure.UnivariateStructure is an external
collaborator, specified only at its interface boundary. The only facet this
development needs is its noise covariance W; the code reads the latent
dimension as structure.W.shape[0], here W.length. -/
structure UnivariateStructure where
  W : Mat
deriving DecidableEq

/-- Modelled from the spec: a locally-constant block has dimension 1 and noise
covariance [[W]]. -/
def UnivariateStructure.locally_constant (w : ℚ) : UnivariateStructure :=
  ⟨[[w]]⟩

/-- Modelled from the spec: a cyclic Fourier block with h harmonics has
dimension 2h and carries the supplied noise covariance W; the period is
carried only for the external recurrence, not used by this development. -/
def UnivariateStructure.cyclic_fourier (_period : ℕ) (_harmonics : ℕ) (W : Mat) :
    UnivariateStructure :=
  ⟨W⟩

/-- Modelled from the spec: an ARMA block with p coefficients has dimension p
and a noise covariance square of side p built from the scalar noise passed
through (modelled as the noise scaling of the identity). -/
def UnivariateStructure.arma (p : ℕ) (_betas : List ℚ) (W : ℚ) : UnivariateStructure :=
  ⟨scalarMul W (identityMatrix p)⟩

/-- Modelled from the spec: structure addition (the + folded over in
_parse_structure) is the direct (block) sum: block-diagonal combination of the
noise covariances, concatenating the latent dimensions in order. -/
def UnivariateStructure.add (a b : UnivariateStructure) : UnivariateStructure :=
  ⟨blockDiag a.W b.W⟩

/-- An anomaly function as produced in _parse_component: either the identity
closure lambda x: x, or the Bernoulli-gated scaling closure. Applying one
consumes a fresh draw r from the process-wide random source. -/
inductive AnomalyFn where
  | identity : AnomalyFn
  | bernoulliScale (probability scale : ℚ) : AnomalyFn
deriving DecidableEq

/-- Application of an anomaly closure, r being the fresh value returned by
random.random() at apply time: lambda x: x * scale if r < probability else x. -/
def AnomalyFn.apply : AnomalyFn → ℚ → ℚ → ℚ
  | .identity, _, x => x
  | .bernoulliScale p s, r, x => if r < p then x * s else x

/-- The anomalies block of a component spec; either field may be absent. -/
structure AnomaliesConf where
  probability : Option ℚ
  scale : Option ℚ
deriving DecidableEq

/-- One record of the structure configuration, as read from YAML. Fields the
code reads unconditionally (type, noise, start) are required; fields it reads
conditionally are Option. The comma-separated coefficients string is modelled
as the list of parsed floats. -/
structure ComponentConf where
  type : String
  noise : ℚ
  start : ℚ
  period : Option ℕ
  harmonics : Option ℕ
  coefficients : Option (List ℚ)
  anomalies : Option AnomaliesConf
deriving DecidableEq

/-- The type-dispatch section of _parse_component (src/app.py lines 40-70):
builds the structural block and the prior-mean fragment m0. An unknown type
raises ValueError naming the offending value; a season spec without period
raises KeyError. -/
def parseComponentStructure (conf : ComponentConf) :
    Except String (UnivariateStructure × List ℚ) :=
  if conf.type = "mean" then
    .ok (UnivariateStructure.locally_constant conf.noise, [conf.start])
  else if conf.type = "season" then
    let nharmonics := conf.harmonics.getD 3
    let W := scalarMul conf.noise (identityMatrix (2 * nharmonics))
    match conf.period with
    | some period =>
        .ok (UnivariateStructure.cyclic_fourier period nharmonics W,
             List.replicate W.length conf.start)
    | none => .error "KeyError: period"
  else if conf.type = "arma" then
    let coefficients := conf.coefficients.getD [1]
    .ok (UnivariateStructure.arma coefficients.length coefficients conf.noise,
         List.replicate coefficients.length conf.start)
  else
    .error ("Unknown component type \x27" ++ conf.type ++ "\x27")

/-- The anomaly section of _parse_component (src/app.py lines 72-86): with an
anomalies block holding both probability and scale, one Bernoulli-gated
closure per row of structure.W; with no anomalies block, one identity closure
per row. When the block is present but a field is missing, the local variable
anomalies is never assigned and the subsequent logging.debug(anomalies) read
raises UnboundLocalError. -/
def parseComponentAnomalies (conf : ComponentConf) (s : UnivariateStructure) :
    Except String (List AnomalyFn) :=
  match conf.anomalies with
  | some anomConf =>
    match anomConf.probability, anomConf.scale with
    | some p, some sc => .ok (List.replicate s.W.length (AnomalyFn.bernoulliScale p sc))
    | some _, none =>
        .error "UnboundLocalError: local variable \x27anomalies\x27 referenced before assignment"
    | none, _ =>
        .error "UnboundLocalError: local variable \x27anomalies\x27 referenced before assignment"
  | none => .ok (List.replicate s.W.length AnomalyFn.identity)

/-- _parse_component (src/app.py lines 34-88): structure dispatch, then the
anomaly section, returning (structure, anomalies, m0). -/
def _parse_component (conf : ComponentConf) :
    Except String (UnivariateStructure × List AnomalyFn × List ℚ) := do
  let (s, m0) ← parseComponentStructure conf
  let anomalies ← parseComponentAnomalies conf s
  .ok (s, anomalies, m0)

/-- The accumulation loop of _parse_structure (src/app.py lines 96-100): parse
each component in order, collecting (structure, anomalies, m0) triples; the
first failing component aborts. -/
def parseComponents : List ComponentConf →
    Except String (List (UnivariateStructure × List AnomalyFn × List ℚ))
  | [] => .ok []
  | c :: cs => do
    let p ← _parse_component c
    let ps ← parseComponents cs
    .ok (p :: ps)

/-- functools.reduce with no initializer: error on an empty sequence, else a
left fold of the tail with the head as accumulator. -/
def reduce1 (f : α → α → α) : List α → Except String α
  | [] => .error "TypeError: reduce of empty sequence with no initial value"
  | x :: xs => .ok (xs.foldl f x)

/-- _parse_structure (src/app.py lines 91-105): parse all components, append
their m0 and anomaly fragments in order, set C0 = np.eye(len(m0)), and fold
the structures with + via reduce. -/
def _parse_structure (conf : List ComponentConf) :
    Except String (UnivariateStructure × List ℚ × Mat × List AnomalyFn) := do
  let parts ← parseComponents conf
  let m0 := (parts.map (fun p => p.2.2)).flatten
  let anomalies := (parts.map (fun p => p.2.1)).flatten
  let C0 := identityMatrix m0.length
  let s ← reduce1 UnivariateStructure.add (parts.map (fun p => p.1))
  .ok (s, m0, C0, anomalies)

/-- One observation spec, as read from YAML; conditionally-read fields are
Option. The comma-separated values string is modelled as the label list. -/
structure ObsConf where
  type : String
  noise : Option ℚ
  values : Option (List String)
  categories : Option ℕ
deriving DecidableEq

/-- The observation-bound models built by _parse_observations, and the
composite wrapper built by _parse_composite. Their state/observation
recurrences live in the external modeling library; this development carries
only their identity (variant and constructor arguments). -/
inductive Model where
  | normalDLM (struct : UnivariateStructure) (V : ℚ) : Model
  | poissonDLM (struct : UnivariateStructure) : Model
  | binomialTransformer (struct : UnivariateStructure) (source : List String) : Model
  | binomialDLM (struct : UnivariateStructure) (categories : ℕ) : Model
  | compositeTransformer (models : List Model) : Model

/-- _parse_observations (src/app.py lines 134-151): bind an observation model
to a structure. The values branch is tested before the categories branch. -/
def _parse_observations (obs : ObsConf) (s : UnivariateStructure) : Except String Model :=
  if obs.type = "continuous" then
    match obs.noise with
    | some v => .ok (Model.normalDLM s v)
    | none => .error "KeyError: noise"
  else if obs.type = "discrete" then
    .ok (Model.poissonDLM s)
  else if obs.type = "categorical" then
    match obs.values with
    | some values => .ok (Model.binomialTransformer s values)
    | none =>
      match obs.categories with
      | some c => .ok (Model.binomialDLM s c)
      | none => .error "Categorical models must have either \x27values\x27 or \x27categories\x27"
  else
    .error ("Model type " ++ obs.type ++ " is not valid")

/-- One top-level item of the prior_mean list built by _parse_composite: the
non-replicate branch extends with the scalars of m0, the replicate branch
extends with the array object m0 itself repeated N times, so an item is
either a scalar or a whole vector. len(np.array(prior_mean)) is the number
of top-level items. -/
inductive PriorItem where
  | scalar (x : ℚ) : PriorItem
  | vector (v : List ℚ) : PriorItem
deriving DecidableEq

/-- The latent dimension a prior item accounts for: 1 for a scalar entry, the
vector length for an array entry. -/
def PriorItem.size : PriorItem → ℕ
  | .scalar _ => 1
  | .vector v => v.length

/-- One element of the top-level compose list: an optional replicate count, a
structure list and an observations spec. -/
structure ElementConf where
  replicate : Option ℕ
  struct : List ComponentConf
  observations : ObsConf
deriving DecidableEq

/-- Python list repetition l * n: n copies of l concatenated. -/
def nCopies (n : ℕ) (l : List α) : List α :=
  (List.replicate n l).flatten

/-- The accumulation loop of _parse_composite (src/app.py lines 112-126): per
element, parse its structure and bind its observation model; a replicate: N
element extends models with [model]*N, prior_mean with [m0]*N (N array
objects) and the anomaly vector with anomalies*N; a plain element appends one
model, the scalars of m0 and its anomaly fragment. -/
def parseElements : List ElementConf →
    Except String (List Model × List PriorItem × List AnomalyFn)
  | [] => .ok ([], [], [])
  | e :: rest => do
    let (s, m0, _C0, anomalies) ← _parse_structure e.struct
    let model ← _parse_observations e.observations s
    let (models, priors, anoms) ← parseElements rest
    match e.replicate with
    | some n =>
        .ok (List.replicate n model ++ models,
             List.replicate n (PriorItem.vector m0) ++ priors,
             nCopies n anomalies ++ anoms)
    | none =>
        .ok (model :: models,
             m0.map PriorItem.scalar ++ priors,
             anomalies ++ anoms)

/-- _parse_composite (src/app.py lines 108-131): run the element loop, wrap
the models in a CompositeTransformer, take m0 = np.array(prior_mean) and
C0 = np.eye(len(m0)) where len counts top-level items. -/
def _parse_composite (conf : List ElementConf) :
    Except String (Model × List PriorItem × Mat × List AnomalyFn) := do
  let (models, priors, anoms) ← parseElements conf
  .ok (Model.compositeTransformer models, priors, identityMatrix priors.length, anoms)

/-- The parsed top-level configuration document: the compose branch is taken
exactly when the document has a compose key. -/
inductive TopConf where
  | compose (elements : List ElementConf) (period : ℚ) (name : String) : TopConf
  | plain (struct : List ComponentConf) (observations : ObsConf) (period : ℚ) (name : String) : TopConf

/-- parse_configuration (src/app.py lines 154-173): build the model, then draw
the initial state once from mvn(m0, C0); the sampler argument models that
single draw and is applied only after the whole build succeeded. -/
def parse_configuration (conf : TopConf)
    (sampler : List PriorItem → Mat → List ℚ) :
    Except String (Model × List ℚ × ℚ × String × List AnomalyFn) :=
  match conf with
  | .compose elements period name => do
    let (model, priors, C0, anomalies) ← _parse_composite elements
    let state := sampler priors C0
    .ok (model, state, period, name, anomalies)
  | .plain struct obs period name => do
    let (s, m0, C0, anomalies) ← _parse_structure struct
    let model ← _parse_observations obs s
    let state := sampler (m0.map PriorItem.scalar) C0
    .ok (model, state, period, name, anomalies)

/-- A JSON value appearing as the value field of an emitted message: a string
label or a number. -/
inductive JsonValue where
  | str (s : String) : JsonValue
  | num (q : ℚ) : JsonValue
deriving DecidableEq

/-- Rendering of a JSON number; the exact numeral formatting belongs to the
json library, modelled by the standard rational rendering. -/
def renderNum (q : ℚ) : String :=
  toString q

/-- Rendering of a JSON leaf value. -/
def renderValue : JsonValue → String
  | .str s => "\"" ++ s ++ "\""
  | .num q => renderNum q

/-- json.dumps of a flat object with the default separators: keys in
insertion order. -/
def jsonDumps (fields : List (String × JsonValue)) : String :=
  "\x7b" ++ String.intercalate ", "
    (fields.map (fun kv => "\"" ++ kv.1 ++ "\": " ++ renderValue kv.2)) ++ "\x7d"

/-- UTF-8 encoding of one character as its byte values. -/
def utf8EncodeChar (c : Char) : List ℕ :=
  let n := c.toNat
  if n < 128 then [n]
  else if n < 2048 then [192 + n / 64, 128 + n % 64]
  else if n < 65536 then [224 + n / 4096, 128 + (n / 64) % 64, 128 + n % 64]
  else [240 + n / 262144, 128 + (n / 4096) % 64, 128 + (n / 64) % 64, 128 + n % 64]

/-- UTF-8 encoding of a string (str.encode()). -/
def utf8Encode (s : String) : List ℕ :=
  (s.data.map utf8EncodeChar).flatten

/-- The two fields of the message dict literal in build_message, in insertion
order. -/
def msgFields (name : String) (value : JsonValue) : List (String × JsonValue) :=
  [("name", JsonValue.str name), ("value", value)]

/-- build_message (src/app.py lines 176-180):
json.dumps({name: name, value: value}).encode(). -/
def build_message (name : String) (value : JsonValue) : List ℕ :=
  utf8Encode (jsonDumps (msgFields name value))

/-- The per-tick perturbation of the live state (src/app.py lines 206-217):
with one dimension, anomalies[0] is applied to the whole array (one draw);
otherwise the loop writes each index of a fresh copy once, reading only the
unperturbed state, so the result is the index map over the original state,
each index consuming its own draw. -/
def perturb (anoms : List AnomalyFn) (draws : List ℚ) (state : List ℚ) : List ℚ :=
  if state.length = 1 then
    state.map (fun x => AnomalyFn.apply (anoms.getD 0 AnomalyFn.identity) (draws.getD 0 0) x)
  else
    (List.range state.length).map (fun i =>
      AnomalyFn.apply (anoms.getD i AnomalyFn.identity) (draws.getD i 0) (state.getD i 0))

/-- One iteration of the simulation loop (src/app.py lines 204-225): perturb
the state, derive the observation from the perturbed copy via
model.observation, advance the carried state from the unperturbed state via
model.state. The model capability functions mS/mO are the external interface
consumed by the loop. -/
def loopStep (mS : List ℚ → List ℚ) (mO : List ℚ → ℚ) (anoms : List AnomalyFn)
    (draws : List ℚ) (state : List ℚ) : ℚ × List ℚ :=
  let perturbed := perturb anoms draws state
  let y := mO perturbed
  let nextState := mS state
  (y, nextState)

/-- The carried state before tick k: the sampled initial state at k = 0, then
the second component of each loop iteration. -/
def simCarried (mS : List ℚ → List ℚ) (mO : List ℚ → ℚ) (anoms : List AnomalyFn)
    (draws : ℕ → List ℚ) (s0 : List ℚ) : ℕ → List ℚ
  | 0 => s0
  | k + 1 => (loopStep mS mO anoms (draws k) (simCarried mS mO anoms draws s0 k)).2

/-- The observation emitted at tick k: the first component of the loop
iteration at tick k. -/
def simObs (mS : List ℚ → List ℚ) (mO : List ℚ → ℚ) (anoms : List AnomalyFn)
    (draws : ℕ → List ℚ) (s0 : List ℚ) (k : ℕ) : ℚ :=
  (loopStep mS mO anoms (draws k) (simCarried mS mO anoms draws s0 k)).1

/-- The loop parameters main runs with: either parsed from the configuration
file or, with no file, the fixed defaults of src/app.py lines 192-198. -/
structure SimSetup where
  state : List ℚ
  model : Model
  period : ℚ
  name : String
  anomalies : List AnomalyFn

/-- The configuration branch of main (src/app.py lines 189-198): with a file,
parse it; without one, the fixed defaults of the else branch. -/
def mainSetup (conf : Option TopConf) (sampler : List PriorItem → Mat → List ℚ) :
    Except String SimSetup :=
  match conf with
  | some c =>
    (parse_configuration c sampler).map
      (fun r => ⟨r.2.1, r.1, r.2.2.1, r.2.2.2.1, r.2.2.2.2⟩)
  | none =>
    .ok { state := [0]
        , model := Model.normalDLM (UnivariateStructure.locally_constant 1.0) 1.4
        , period := 2.0
        , name := "data"
        , anomalies := [AnomalyFn.identity] }

/-- The first n messages the program emits: none at all when the build phase
fails, else the build_message of each tick observation under the configured
name. -/
def mainMessages (conf : Option TopConf) (sampler : List PriorItem → Mat → List ℚ)
    (mS : List ℚ → List ℚ) (mO : List ℚ → ℚ) (draws : ℕ → List ℚ) (n : ℕ) :
    Except String (List (List ℕ)) := do
  let setup ← mainSetup conf sampler
  .ok ((List.range n).map (fun k =>
    build_message setup.name (JsonValue.num (simObs mS mO setup.anomalies draws setup.state k))))

/-- A matrix is square when every row is as long as the row count. -/
def isSquare (M : Mat) : Bool :=
  M.all (fun row => row.length == M.length)

/-- A concrete mean component spec: noise 1, start 0, no optional fields. -/
def meanConf : ComponentConf :=
  ⟨"mean", 1, 0, none, none, none, none⟩

/-- A concrete season component spec: noise 2, start 5, period 12, default
harmonics. -/
def seasonConf : ComponentConf :=
  ⟨"season", 2, 5, some 12, none, none, none⟩

/-- A concrete mean component spec with a full anomalies block
(probability 1/2, scale 10). -/
def c5Conf : ComponentConf :=
  ⟨"mean", 1, 0, none, none, none, some ⟨some (1/2), some 10⟩⟩

/-- A concrete mean component spec whose anomalies block has a probability
but no scale. -/
def c6Conf : ComponentConf :=
  ⟨"mean", 1, 0, none, none, none, some ⟨some (1/2), none⟩⟩

/-- A concrete discrete (Poisson) observation spec. -/
def discreteObs : ObsConf :=
  ⟨"discrete", none, none, none⟩

/-- A concrete compose element: replicate 2 over a two-dimensional structure
of two mean components, with a discrete observation model. -/
def c3Element : ElementConf :=
  ⟨some 2, [meanConf, meanConf], discreteObs⟩

/-- A concrete component spec with an unrecognized type. -/
def badComponentConf : ComponentConf :=
  ⟨"trend", 1, 0, none, none, none, none⟩

/-- A concrete observation spec with an unrecognized type. -/
def badObsConf : ObsConf :=
  ⟨"weird", none, none, none⟩

/-- A concrete categorical observation spec with neither values nor
categories. -/
def catMissingObs : ObsConf :=
  ⟨"categorical", none, none, none⟩

/-- A concrete continuous observation spec with noise 7/5. -/
def contObs : ObsConf :=
  ⟨"continuous", some (7/5), none, none⟩

/-- The parts _parse_component yields on meanConf, used as a concrete parse
outcome. -/
def meanParts : List (UnivariateStructure × List AnomalyFn × List ℚ) :=
  [(⟨[[1]]⟩, [AnomalyFn.identity], [0])]

/-- A concrete sampler standing in for the single mvn(m0, C0).rvs() draw. -/
def wSampler : List PriorItem → Mat → List ℚ :=
  fun items _ => List.replicate items.length 3

/-- A concrete model state-transition capability for loop witnesses. -/
def wMS : List ℚ → List ℚ :=
  fun l => l.map (fun x => x + 1)

/-- A concrete model observation capability for loop witnesses. -/
def wMO : List ℚ → ℚ :=
  fun l => l.sum

/-- Concrete anomaly functions for loop witnesses. -/
def wAnoms : List AnomalyFn :=
  [AnomalyFn.identity, AnomalyFn.bernoulliScale 1 2]

/-- Concrete random draws for loop witnesses. -/
def wDraws : ℕ → List ℚ :=
  fun _ => [0, 0]

/-- A concrete two-dimensional initial state for loop witnesses. -/
def wS0 : List ℚ :=
  [1, 2]

theorem bind_ok_iff {ε α β : Type} (x : Except ε α) (f : α → Except ε β) (b : β) :
    (x >>= f) = .ok b ↔ ∃ a, x = .ok a ∧ f a = .ok b := by
  cases x with
  | error e => simp [Bind.bind, Except.bind]
  | ok a => simp [Bind.bind, Except.bind]

theorem blockDiag_nil_right (A : Mat) : blockDiag A [] = A := by
  simp [blockDiag]

theorem blockDiag_length (A B : Mat) :
    (blockDiag A B).length = A.length + B.length := by
  simp [blockDiag]

theorem blockDiag_assoc (A B C : Mat) :
    blockDiag (blockDiag A B) C = blockDiag A (blockDiag B C) := by
  simp only [blockDiag, List.map_append, List.map_map, List.length_append,
    List.length_map, List.append_assoc, List.replicate_add, Function.comp_def]

theorem foldl_add_eq (ss : List UnivariateStructure) (s : UnivariateStructure) :
    ss.foldl UnivariateStructure.add s
      = UnivariateStructure.mk (blockDiag s.W (blockDiagAll (ss.map (fun t => t.W)))) := by
  induction ss generalizing s with
  | nil => simp [blockDiagAll, blockDiag_nil_right]
  | cons t ts ih =>
    simp only [List.foldl_cons, List.map_cons, blockDiagAll]
    rw [ih]
    simp [UnivariateStructure.add, blockDiag_assoc]

theorem length_identityMatrix (n : ℕ) : (identityMatrix n).length = n := by
  simp [identityMatrix]

theorem length_scalarMul (c : ℚ) (M : Mat) : (scalarMul c M).length = M.length := by
  simp [scalarMul]

theorem isSquare_scalarMul_identity (c : ℚ) (n : ℕ) :
    isSquare (scalarMul c (identityMatrix n)) = true := by
  simp [isSquare, List.all_eq_true, scalarMul, identityMatrix]

theorem _parse_component_inv {conf : ComponentConf} {s : UnivariateStructure}
    {a : List AnomalyFn} {m0 : List ℚ}
    (h : _parse_component conf = .ok (s, a, m0)) :
    parseComponentStructure conf = .ok (s, m0)
      ∧ parseComponentAnomalies conf s = .ok a := by
  unfold _parse_component at h
  rw [bind_ok_iff] at h
  obtain ⟨⟨s2, m2⟩, h1, h2⟩ := h
  rw [bind_ok_iff] at h2
  obtain ⟨a2, h3, h4⟩ := h2
  simp only [Except.ok.injEq, Prod.mk.injEq] at h4
  obtain ⟨hs, ha, hm⟩ := h4
  subst hs; subst ha; subst hm
  exact ⟨h1, h3⟩

theorem simCarried_eq_iterate (mS : List ℚ → List ℚ) (mO : List ℚ → ℚ)
    (anoms : List AnomalyFn) (draws : ℕ → List ℚ) (s0 : List ℚ) (k : ℕ) :
    simCarried mS mO anoms draws s0 k = mS^[k] s0 := by
  induction k with
  | zero => rfl
  | succ k ih =>
    rw [Function.iterate_succ_apply]
    rw [show mS^[k] (mS s0) = mS^[k + 1] s0 from (Function.iterate_succ_apply mS k s0).symm]
    rw [Function.iterate_succ_apply]
    calc simCarried mS mO anoms draws s0 (k + 1)
        = mS (simCarried mS mO anoms draws s0 k) := rfl
      _ = mS (mS^[k] s0) := by rw [ih]
      _ = mS^[k] (mS s0) := (Function.iterate_succ_apply' mS k s0).symm.trans
            (Function.iterate_succ_apply mS k s0)

/-- C1: in every iteration of the simulation loop, the observation emitted at
tick k is derived from the perturbed state (each dimension i perturbed as
anomaly_i(state[i])), while the state carried into tick k+1 is model.state
applied to the unperturbed state of tick k; the per-dimension perturbation
step never modifies the carried state vector (the carried state is the
anomaly-independent iterate of model.state). -/
theorem C1_simulation_loop_invariant (mS : List ℚ → List ℚ) (mO : List ℚ → ℚ)
    (anoms : List AnomalyFn) (draws : ℕ → List ℚ) (s0 : List ℚ) (k : ℕ) :
    simObs mS mO anoms draws s0 k
      = mO (perturb anoms (draws k) (simCarried mS mO anoms draws s0 k))
    ∧ simCarried mS mO anoms draws s0 (k + 1)
      = mS (simCarried mS mO anoms draws s0 k)
    ∧ (∀ anoms2 draws2, simCarried mS mO anoms2 draws2 s0 k
        = simCarried mS mO anoms draws s0 k)
    ∧ ((simCarried mS mO anoms draws s0 k).length ≠ 1 →
        perturb anoms (draws k) (simCarried mS mO anoms draws s0 k)
          = (List.range (simCarried mS mO anoms draws s0 k).length).map (fun i =>
              AnomalyFn.apply (anoms.getD i AnomalyFn.identity) ((draws k).getD i 0)
                ((simCarried mS mO anoms draws s0 k).getD i 0))) := by
  refine ⟨rfl, rfl, ?_, ?_⟩
  · intro anoms2 draws2
    rw [simCarried_eq_iterate, simCarried_eq_iterate]
  · intro hlen
    simp only [perturb, if_neg hlen]

/-- Witness for C1 at concrete model capabilities, anomalies, draws, state
and tick. -/
theorem C1_simulation_loop_invariant_witness :
    simObs wMS wMO wAnoms wDraws wS0 1
      = wMO (perturb wAnoms (wDraws 1) (simCarried wMS wMO wAnoms wDraws wS0 1))
    ∧ simCarried wMS wMO wAnoms wDraws wS0 (1 + 1)
      = wMS (simCarried wMS wMO wAnoms wDraws wS0 1)
    ∧ (∀ anoms2 draws2, simCarried wMS wMO anoms2 draws2 wS0 1
        = simCarried wMS wMO wAnoms wDraws wS0 1)
    ∧ ((simCarried wMS wMO wAnoms wDraws wS0 1).length ≠ 1 →
        perturb wAnoms (wDraws 1) (simCarried wMS wMO wAnoms wDraws wS0 1)
          = (List.range (simCarried wMS wMO wAnoms wDraws wS0 1).length).map (fun i =>
              AnomalyFn.apply (wAnoms.getD i AnomalyFn.identity) ((wDraws 1).getD i 0)
                ((simCarried wMS wMO wAnoms wDraws wS0 1).getD i 0))) :=
  C1_simulation_loop_invariant wMS wMO wAnoms wDraws wS0 1

/-- C8: for every series name and observation value, the emitted message is
the UTF-8 encoding of the JSON object with exactly the two keys name and
value, holding the configured series name and the observation, and no other
key. -/
theorem C8_message_wire_format (name : String) (value : JsonValue) :
    build_message name value = utf8Encode (jsonDumps (msgFields name value))
    ∧ (msgFields name value).map Prod.fst = ["name", "value"]
    ∧ (msgFields name value).length = 2
    ∧ (msgFields name value).lookup "name" = some (JsonValue.str name)
    ∧ (msgFields name value).lookup "value" = some value
    ∧ ∀ k, k ∈ (msgFields name value).map Prod.fst → k = "name" ∨ k = "value" := by
  refine ⟨rfl, rfl, rfl, rfl, rfl, ?_⟩
  intro k hk
  simp only [msgFields, List.map_cons, List.map_nil, List.mem_cons,
    List.not_mem_nil, or_false] at hk
  exact hk

/-- C9: a categorical observation spec carrying both values and categories
does not raise: the values branch takes precedence and a label-reporting
BinomialTransformer is built, with categories ignored. -/
theorem C9_categorical_both_fields (s : UnivariateStructure) (noise : Option ℚ)
    (vals : List String) (cats : ℕ) :
    _parse_observations ⟨"categorical", noise, some vals, some cats⟩ s
      = .ok (Model.binomialTransformer s vals) :=
  rfl

/-- C10: with no configuration file, main runs the simulation loop with the
fixed defaults: one-dimensional locally-constant structure with noise 1.0,
NormalDLM observation model with variance 1.4, initial state [0], period 2.0,
series name data, and a single identity anomaly function. -/
theorem C10_default_configuration :
    (∀ sampler, mainSetup none sampler = .ok
      { state := [0]
      , model := Model.normalDLM (UnivariateStructure.locally_constant 1.0) 1.4
      , period := 2.0
      , name := "data"
      , anomalies := [AnomalyFn.identity] })
    ∧ (UnivariateStructure.locally_constant 1.0).W = [[1.0]]
    ∧ (UnivariateStructure.locally_constant 1.0).W.length = 1
    ∧ (1.4 : ℚ) = 7 / 5
    ∧ (∀ sampler mS mO draws n, mainMessages none sampler mS mO draws n
        = .ok ((List.range n).map (fun k =>
            build_message "data"
              (JsonValue.num (simObs mS mO [AnomalyFn.identity] draws [0] k))))) := by
  refine ⟨fun _ => rfl, rfl, rfl, by norm_num, fun _ _ _ _ _ => rfl⟩

/-- C3: evaluation of _parse_composite at a replicate: 2 element over a
two-dimensional structure. The assembler does append exactly 2 model entries
(both the one built model) and 2 copies of the 2-function anomaly fragment
(4 functions), but prior_mean receives the array object m0 twice instead of a
flat concatenation: the resulting prior has 2 top-level items while the sum
of the latent dimensions of the replicated element is 4, so its length is
not the sum of the latent dimensions. -/
theorem C3_replicate_prior_mean_eval :
    _parse_composite [c3Element]
      = .ok (Model.compositeTransformer
               [Model.poissonDLM ⟨[[1, 0], [0, 1]]⟩, Model.poissonDLM ⟨[[1, 0], [0, 1]]⟩],
             [PriorItem.vector [0, 0], PriorItem.vector [0, 0]],
             identityMatrix 2,
             [AnomalyFn.identity, AnomalyFn.identity, AnomalyFn.identity, AnomalyFn.identity])
    ∧ ([(PriorItem.vector [0, 0]), PriorItem.vector [0, 0]].map PriorItem.size).sum = 4
    ∧ [(PriorItem.vector [0, 0]), PriorItem.vector [0, 0]].length = 2
    ∧ [(PriorItem.vector [0, 0]), PriorItem.vector [0, 0]].length
        ≠ ([(PriorItem.vector [0, 0]), PriorItem.vector [0, 0]].map PriorItem.size).sum := by
  refine ⟨rfl, rfl, rfl, by decide⟩

/-- C6 counterexample: at the concrete spec c6Conf (a mean component whose
anomalies block has a probability but no scale), _parse_component does not
return a result with an empty anomaly list; it fails, because the local
variable anomalies is read without ever being assigned. -/
theorem C6_counterexample :
    _parse_component c6Conf
      = .error "UnboundLocalError: local variable \x27anomalies\x27 referenced before assignment"
    ∧ ¬ ∃ s m0, _parse_component c6Conf = .ok (s, [], m0) := by
  have h1 : _parse_component c6Conf
      = .error "UnboundLocalError: local variable \x27anomalies\x27 referenced before assignment" :=
    rfl
  refine ⟨h1, ?_⟩
  rintro ⟨s, m0, hc⟩
  rw [h1] at hc
  exact Except.noConfusion hc

/-- C4: for every valid component spec, the built structural block has the
documented latent dimension: 1 for mean, 2h for season with h harmonics
(h defaulting to 3 when absent), and p for arma with p coefficients
(defaulting to the single coefficient 1.0 when absent); its noise covariance
is square of that side, and its initial-mean vector is [start] repeated
dimension times. -/
theorem C4_component_dimensions
    (conf : ComponentConf) (s : UnivariateStructure) (anoms : List AnomalyFn) (m0 : List ℚ)
    (h : _parse_component conf = .ok (s, anoms, m0)) :
    (conf.type = "mean" →
      s.W.length = 1 ∧ isSquare s.W = true ∧ m0 = List.replicate 1 conf.start)
    ∧ (conf.type = "season" →
      s.W.length = 2 * conf.harmonics.getD 3 ∧ isSquare s.W = true
        ∧ m0 = List.replicate (2 * conf.harmonics.getD 3) conf.start)
    ∧ (conf.type = "arma" →
      s.W.length = (conf.coefficients.getD [1]).length ∧ isSquare s.W = true
        ∧ m0 = List.replicate ((conf.coefficients.getD [1]).length) conf.start) := by
  obtain ⟨hs, -⟩ := _parse_component_inv h
  refine ⟨?_, ?_, ?_⟩
  · intro hty
    simp [parseComponentStructure, hty] at hs
    obtain ⟨hW, hm⟩ := hs
    subst hW
    subst hm
    exact ⟨rfl, rfl, rfl⟩
  · intro hty
    simp [parseComponentStructure, hty] at hs
    cases hper : conf.period with
    | none =>
      rw [hper] at hs
      simp at hs
    | some per =>
      rw [hper] at hs
      simp at hs
      obtain ⟨hW, hm⟩ := hs
      subst hW
      subst hm
      refine ⟨?_, isSquare_scalarMul_identity _ _, ?_⟩
      · simp [UnivariateStructure.cyclic_fourier, length_scalarMul, length_identityMatrix]
      · simp [length_scalarMul, length_identityMatrix]
  · intro hty
    simp [parseComponentStructure, hty] at hs
    obtain ⟨hW, hm⟩ := hs
    subst hW
    subst hm
    refine ⟨?_, isSquare_scalarMul_identity _ _, rfl⟩
    simp [UnivariateStructure.arma, length_scalarMul, length_identityMatrix]


/-- C5: for a component spec whose anomalies block contains both probability
and scale, the anomaly factory returns one function per latent dimension,
each an independent Bernoulli-gated rule that with probability 0 always
returns its input unchanged and with probability 1 always returns
input * scale; for a spec with no anomalies block it returns the identity
function for every dimension. -/
theorem C5_anomaly_factory
    (conf : ComponentConf) (s : UnivariateStructure) (anoms : List AnomalyFn) (m0 : List ℚ)
    (h : _parse_component conf = .ok (s, anoms, m0)) :
    (∀ p sc, conf.anomalies = some ⟨some p, some sc⟩ →
      anoms = List.replicate s.W.length (AnomalyFn.bernoulliScale p sc)
      ∧ anoms.length = s.W.length
      ∧ ∀ f ∈ anoms, ∀ r x : ℚ, 0 ≤ r → r < 1 →
          (p = 0 → AnomalyFn.apply f r x = x) ∧ (p = 1 → AnomalyFn.apply f r x = x * sc))
    ∧ (conf.anomalies = none →
      anoms = List.replicate s.W.length AnomalyFn.identity
      ∧ ∀ f ∈ anoms, ∀ r x : ℚ, AnomalyFn.apply f r x = x) := by
  obtain ⟨-, ha⟩ := _parse_component_inv h
  constructor
  · intro p sc hconf
    simp [parseComponentAnomalies, hconf] at ha
    refine ⟨ha.symm, ?_, ?_⟩
    · rw [← ha]
      simp
    · intro f hf r x hr0 hr1
      rw [← ha] at hf
      have hf2 := List.eq_of_mem_replicate hf
      subst hf2
      constructor
      · intro hp
        subst hp
        simp [AnomalyFn.apply, not_lt.2 hr0]
      · intro hp
        subst hp
        simp [AnomalyFn.apply, hr1]
  · intro hconf
    simp [parseComponentAnomalies, hconf] at ha
    refine ⟨ha.symm, ?_⟩
    intro f hf r x
    rw [← ha] at hf
    have hf2 := List.eq_of_mem_replicate hf
    subst hf2
    rfl

/-- C6 (amended): for a component spec whose anomalies block is present but
lacks either probability or scale, parsing the component does not return a
short anomaly list; it fails with an unbound-local error, because the
anomalies variable is read without ever being assigned, so the caller
receives nothing at all. -/
theorem C6_partial_anomaly_block
    (conf : ComponentConf) (ac : AnomaliesConf)
    (hty : conf.type = "mean" ∨ (conf.type = "season" ∧ conf.period ≠ none) ∨ conf.type = "arma")
    (ha : conf.anomalies = some ac)
    (hmiss : ac.probability = none ∨ ac.scale = none) :
    _parse_component conf
      = .error "UnboundLocalError: local variable \x27anomalies\x27 referenced before assignment" := by
  have hstruct : ∃ s m0, parseComponentStructure conf = .ok (s, m0) := by
    rcases hty with hty | ⟨hty, hper⟩ | hty
    · exact ⟨UnivariateStructure.locally_constant conf.noise, [conf.start],
        by simp [parseComponentStructure, hty]⟩
    · cases hper2 : conf.period with
      | none => exact absurd hper2 hper
      | some per =>
        exact ⟨UnivariateStructure.cyclic_fourier per (conf.harmonics.getD 3)
            (scalarMul conf.noise (identityMatrix (2 * conf.harmonics.getD 3))),
          List.replicate (scalarMul conf.noise (identityMatrix (2 * conf.harmonics.getD 3))).length conf.start,
          by simp [parseComponentStructure, hty, hper2]⟩
    · exact ⟨UnivariateStructure.arma (conf.coefficients.getD [1]).length
          (conf.coefficients.getD [1]) conf.noise,
        List.replicate (conf.coefficients.getD [1]).length conf.start,
        by simp [parseComponentStructure, hty]⟩
  obtain ⟨s, m0, hs⟩ := hstruct
  have hanom : parseComponentAnomalies conf s
      = .error "UnboundLocalError: local variable \x27anomalies\x27 referenced before assignment" := by
    obtain ⟨ap, asc⟩ := ac
    rcases hmiss with hm | hm
    · simp only at hm
      subst hm
      simp [parseComponentAnomalies, ha]
    · simp only at hm
      subst hm
      cases ap <;> simp [parseComponentAnomalies, ha]
  unfold _parse_component
  rw [hs]
  simp [Bind.bind, Except.bind, hanom]


/-- C7: during the build phase, a component spec with an unrecognized type
fails with an error naming the offending value, an observation spec with an
unrecognized type fails with an error, and a categorical observation spec
with neither values nor categories fails with an error; in all three cases
the error is raised before any state is sampled (the result is the same
error for every sampler) and before any message is sent (the message list is
never produced). -/
theorem C7_build_phase_errors
    (cc : ComponentConf) (obs1 obs2 : ObsConf) (s : UnivariateStructure)
    (h1 : cc.type ≠ "mean" ∧ cc.type ≠ "season" ∧ cc.type ≠ "arma")
    (h2 : obs1.type ≠ "continuous" ∧ obs1.type ≠ "discrete" ∧ obs1.type ≠ "categorical")
    (h3 : obs2.type = "categorical" ∧ obs2.values = none ∧ obs2.categories = none) :
    _parse_component cc = .error ("Unknown component type \x27" ++ cc.type ++ "\x27")
    ∧ _parse_observations obs1 s = .error ("Model type " ++ obs1.type ++ " is not valid")
    ∧ _parse_observations obs2 s
        = .error "Categorical models must have either \x27values\x27 or \x27categories\x27"
    ∧ (∀ obsA period name sampler mS mO draws n,
        parse_configuration (TopConf.plain [cc] obsA period name) sampler
          = .error ("Unknown component type \x27" ++ cc.type ++ "\x27")
        ∧ mainMessages (some (TopConf.plain [cc] obsA period name)) sampler mS mO draws n
          = .error ("Unknown component type \x27" ++ cc.type ++ "\x27"))
    ∧ (∀ strs period name sampler st m0 C0 an mS mO draws n,
        _parse_structure strs = .ok (st, m0, C0, an) →
        parse_configuration (TopConf.plain strs obs1 period name) sampler
          = .error ("Model type " ++ obs1.type ++ " is not valid")
        ∧ mainMessages (some (TopConf.plain strs obs1 period name)) sampler mS mO draws n
          = .error ("Model type " ++ obs1.type ++ " is not valid"))
    ∧ (∀ strs period name sampler st m0 C0 an mS mO draws n,
        _parse_structure strs = .ok (st, m0, C0, an) →
        parse_configuration (TopConf.plain strs obs2 period name) sampler
          = .error "Categorical models must have either \x27values\x27 or \x27categories\x27"
        ∧ mainMessages (some (TopConf.plain strs obs2 period name)) sampler mS mO draws n
          = .error "Categorical models must have either \x27values\x27 or \x27categories\x27") := by
  obtain ⟨h1a, h1b, h1c⟩ := h1
  obtain ⟨h2a, h2b, h2c⟩ := h2
  obtain ⟨h3a, h3b, h3c⟩ := h3
  have hpcs : parseComponentStructure cc
      = .error ("Unknown component type \x27" ++ cc.type ++ "\x27") := by
    simp [parseComponentStructure, h1a, h1b, h1c]
  have hcc : _parse_component cc
      = .error ("Unknown component type \x27" ++ cc.type ++ "\x27") := by
    unfold _parse_component
    rw [hpcs]
    simp [Bind.bind, Except.bind]
  have hobs1 : ∀ s2 : UnivariateStructure,
      _parse_observations obs1 s2 = .error ("Model type " ++ obs1.type ++ " is not valid") := by
    intro s2
    simp [_parse_observations, h2a, h2b, h2c]
  have hobs2 : ∀ s2 : UnivariateStructure,
      _parse_observations obs2 s2
        = .error "Categorical models must have either \x27values\x27 or \x27categories\x27" := by
    intro s2
    simp [_parse_observations, h3a, h3b, h3c]
  have hcomps : parseComponents [cc]
      = .error ("Unknown component type \x27" ++ cc.type ++ "\x27") := by
    simp [parseComponents, hcc, Bind.bind, Except.bind]
  have hstr1 : _parse_structure [cc]
      = .error ("Unknown component type \x27" ++ cc.type ++ "\x27") := by
    simp [_parse_structure, hcomps, Bind.bind, Except.bind]
  refine ⟨hcc, hobs1 s, hobs2 s, ?_, ?_, ?_⟩
  · intro obsA period name sampler mS mO draws n
    constructor
    · simp [parse_configuration, hstr1, Bind.bind, Except.bind]
    · simp [mainMessages, mainSetup, parse_configuration, hstr1, Bind.bind, Except.bind, Except.map]
  · intro strs period name sampler st m0 C0 an mS mO draws n hstr
    constructor
    · simp [parse_configuration, hstr, hobs1, Bind.bind, Except.bind]
    · simp [mainMessages, mainSetup, parse_configuration, hstr, hobs1, Bind.bind, Except.bind, Except.map]
  · intro strs period name sampler st m0 C0 an mS mO draws n hstr
    constructor
    · simp [parse_configuration, hstr, hobs2, Bind.bind, Except.bind]
    · simp [mainMessages, mainSetup, parse_configuration, hstr, hobs2, Bind.bind, Except.bind, Except.map]


/-- C2: for every nonempty list of valid component specs, the structure
composer folds the built blocks left-to-right into a block-diagonal
composite whose layout follows the input order, the prior mean is the
in-order concatenation of the components initial-mean vectors, the prior
covariance is the identity matrix of the total dimension, and the initial
state is sampled from this prior exactly once at build time (the returned
state is the sampler applied once to the prior), never per tick (each tick
only applies the model transition). -/
theorem C2_structure_composer
    (conf : List ComponentConf)
    (parts : List (UnivariateStructure × List AnomalyFn × List ℚ))
    (hne : conf ≠ [])
    (h : parseComponents conf = .ok parts) :
    _parse_structure conf = .ok
      (UnivariateStructure.mk (blockDiagAll (parts.map (fun p => p.1.W))),
       (parts.map (fun p => p.2.2)).flatten,
       identityMatrix ((parts.map (fun p => p.2.2)).flatten).length,
       (parts.map (fun p => p.2.1)).flatten)
    ∧ (∀ obs model period name sampler,
        _parse_observations obs
            (UnivariateStructure.mk (blockDiagAll (parts.map (fun p => p.1.W)))) = .ok model →
        parse_configuration (TopConf.plain conf obs period name) sampler
          = .ok (model,
                 sampler (((parts.map (fun p => p.2.2)).flatten).map PriorItem.scalar)
                   (identityMatrix ((parts.map (fun p => p.2.2)).flatten).length),
                 period, name, (parts.map (fun p => p.2.1)).flatten))
    ∧ (∀ mS mO anoms draws s0 k,
        simCarried mS mO anoms draws s0 (k + 1) = mS (simCarried mS mO anoms draws s0 k)) := by
  have hfirst : _parse_structure conf = .ok
      (UnivariateStructure.mk (blockDiagAll (parts.map (fun p => p.1.W))),
       (parts.map (fun p => p.2.2)).flatten,
       identityMatrix ((parts.map (fun p => p.2.2)).flatten).length,
       (parts.map (fun p => p.2.1)).flatten) := by
    cases conf with
    | nil => exact absurd rfl hne
    | cons c cs =>
      simp only [parseComponents] at h
      rw [bind_ok_iff] at h
      obtain ⟨p, hp, h2⟩ := h
      rw [bind_ok_iff] at h2
      obtain ⟨ps, hps, h3⟩ := h2
      simp only [Except.ok.injEq] at h3
      subst h3
      have hcomp : parseComponents (c :: cs) = .ok (p :: ps) := by
        simp [parseComponents, hp, hps, Bind.bind, Except.bind]
      unfold _parse_structure
      rw [hcomp]
      simp only [Bind.bind, Except.bind, List.map_cons, reduce1]
      rw [foldl_add_eq]
      simp [blockDiagAll, List.map_map, Function.comp_def]
  refine ⟨hfirst, ?_, fun _ _ _ _ _ _ => rfl⟩
  intro obs model period name sampler hobs
  simp [parse_configuration, hfirst, hobs, Bind.bind, Except.bind]


/-- Witness for C2 at the concrete single-component configuration. -/
theorem C2_structure_composer_witness :
    ([meanConf] ≠ [])
    ∧ parseComponents [meanConf] = .ok meanParts
    ∧ (_parse_structure [meanConf] = .ok
        (UnivariateStructure.mk (blockDiagAll (meanParts.map (fun p => p.1.W))),
         (meanParts.map (fun p => p.2.2)).flatten,
         identityMatrix ((meanParts.map (fun p => p.2.2)).flatten).length,
         (meanParts.map (fun p => p.2.1)).flatten)
      ∧ (∀ obs model period name sampler,
          _parse_observations obs
              (UnivariateStructure.mk (blockDiagAll (meanParts.map (fun p => p.1.W)))) = .ok model →
          parse_configuration (TopConf.plain [meanConf] obs period name) sampler
            = .ok (model,
                   sampler (((meanParts.map (fun p => p.2.2)).flatten).map PriorItem.scalar)
                     (identityMatrix ((meanParts.map (fun p => p.2.2)).flatten).length),
                   period, name, (meanParts.map (fun p => p.2.1)).flatten))
      ∧ (∀ mS mO anoms draws s0 k,
          simCarried mS mO anoms draws s0 (k + 1) = mS (simCarried mS mO anoms draws s0 k))) :=
  ⟨by simp, rfl, C2_structure_composer [meanConf] meanParts (by simp) rfl⟩

/-- Witness for C4 at the concrete season spec with default harmonics. -/
theorem C4_component_dimensions_witness :
    _parse_component seasonConf = .ok
      (⟨scalarMul 2 (identityMatrix 6)⟩, List.replicate 6 AnomalyFn.identity,
       List.replicate 6 (5 : ℚ))
    ∧ ((seasonConf.type = "mean" →
          (⟨scalarMul 2 (identityMatrix 6)⟩ : UnivariateStructure).W.length = 1
          ∧ isSquare (⟨scalarMul 2 (identityMatrix 6)⟩ : UnivariateStructure).W = true
          ∧ List.replicate 6 (5 : ℚ) = List.replicate 1 seasonConf.start)
      ∧ (seasonConf.type = "season" →
          (⟨scalarMul 2 (identityMatrix 6)⟩ : UnivariateStructure).W.length
              = 2 * seasonConf.harmonics.getD 3
          ∧ isSquare (⟨scalarMul 2 (identityMatrix 6)⟩ : UnivariateStructure).W = true
          ∧ List.replicate 6 (5 : ℚ)
              = List.replicate (2 * seasonConf.harmonics.getD 3) seasonConf.start)
      ∧ (seasonConf.type = "arma" →
          (⟨scalarMul 2 (identityMatrix 6)⟩ : UnivariateStructure).W.length
              = (seasonConf.coefficients.getD [1]).length
          ∧ isSquare (⟨scalarMul 2 (identityMatrix 6)⟩ : UnivariateStructure).W = true
          ∧ List.replicate 6 (5 : ℚ)
              = List.replicate ((seasonConf.coefficients.getD [1]).length) seasonConf.start)) :=
  ⟨rfl, C4_component_dimensions seasonConf _ _ _ rfl⟩

/-- Witness for C5 at the concrete spec with a full anomalies block. -/
theorem C5_anomaly_factory_witness :
    _parse_component c5Conf = .ok
      (⟨[[1]]⟩, [AnomalyFn.bernoulliScale (1/2) 10], [0])
    ∧ ((∀ p sc, c5Conf.anomalies = some ⟨some p, some sc⟩ →
          [AnomalyFn.bernoulliScale (1/2) 10]
            = List.replicate (⟨[[1]]⟩ : UnivariateStructure).W.length
                (AnomalyFn.bernoulliScale p sc)
          ∧ [AnomalyFn.bernoulliScale (1/2) 10].length
              = (⟨[[1]]⟩ : UnivariateStructure).W.length
          ∧ ∀ f ∈ [AnomalyFn.bernoulliScale (1/2) 10], ∀ r x : ℚ, 0 ≤ r → r < 1 →
              (p = 0 → AnomalyFn.apply f r x = x) ∧ (p = 1 → AnomalyFn.apply f r x = x * sc))
      ∧ (c5Conf.anomalies = none →
          [AnomalyFn.bernoulliScale (1/2) 10]
            = List.replicate (⟨[[1]]⟩ : UnivariateStructure).W.length AnomalyFn.identity
          ∧ ∀ f ∈ [AnomalyFn.bernoulliScale (1/2) 10], ∀ r x : ℚ,
              AnomalyFn.apply f r x = x)) :=
  ⟨rfl, C5_anomaly_factory c5Conf _ _ _ rfl⟩

/-- Witness for the amended C6 at the concrete partial anomalies block. -/
theorem C6_partial_anomaly_block_witness :
    (c6Conf.type = "mean" ∨ (c6Conf.type = "season" ∧ c6Conf.period ≠ none)
      ∨ c6Conf.type = "arma")
    ∧ c6Conf.anomalies = some ⟨some (1/2), none⟩
    ∧ ((⟨some (1/2), none⟩ : AnomaliesConf).probability = none
        ∨ (⟨some (1/2), none⟩ : AnomaliesConf).scale = none)
    ∧ _parse_component c6Conf
        = .error "UnboundLocalError: local variable \x27anomalies\x27 referenced before assignment" :=
  ⟨Or.inl rfl, rfl, Or.inr rfl,
    C6_partial_anomaly_block c6Conf ⟨some (1/2), none⟩ (Or.inl rfl) rfl (Or.inr rfl)⟩

/-- Witness for C7 at concrete unrecognized and incomplete specs. -/
theorem C7_build_phase_errors_witness :
    (badComponentConf.type ≠ "mean" ∧ badComponentConf.type ≠ "season"
      ∧ badComponentConf.type ≠ "arma")
    ∧ (badObsConf.type ≠ "continuous" ∧ badObsConf.type ≠ "discrete"
        ∧ badObsConf.type ≠ "categorical")
    ∧ (catMissingObs.type = "categorical" ∧ catMissingObs.values = none
        ∧ catMissingObs.categories = none)
    ∧ (_parse_component badComponentConf
          = .error ("Unknown component type \x27" ++ badComponentConf.type ++ "\x27")
      ∧ _parse_observations badObsConf (UnivariateStructure.locally_constant 1)
          = .error ("Model type " ++ badObsConf.type ++ " is not valid")
      ∧ _parse_observations catMissingObs (UnivariateStructure.locally_constant 1)
          = .error "Categorical models must have either \x27values\x27 or \x27categories\x27"
      ∧ (∀ obsA period name sampler mS mO draws n,
          parse_configuration (TopConf.plain [badComponentConf] obsA period name) sampler
            = .error ("Unknown component type \x27" ++ badComponentConf.type ++ "\x27")
          ∧ mainMessages (some (TopConf.plain [badComponentConf] obsA period name))
                sampler mS mO draws n
            = .error ("Unknown component type \x27" ++ badComponentConf.type ++ "\x27"))
      ∧ (∀ strs period name sampler st m0 C0 an mS mO draws n,
          _parse_structure strs = .ok (st, m0, C0, an) →
          parse_configuration (TopConf.plain strs badObsConf period name) sampler
            = .error ("Model type " ++ badObsConf.type ++ " is not valid")
          ∧ mainMessages (some (TopConf.plain strs badObsConf period name)) sampler mS mO draws n
            = .error ("Model type " ++ badObsConf.type ++ " is not valid"))
      ∧ (∀ strs period name sampler st m0 C0 an mS mO draws n,
          _parse_structure strs = .ok (st, m0, C0, an) →
          parse_configuration (TopConf.plain strs catMissingObs period name) sampler
            = .error "Categorical models must have either \x27values\x27 or \x27categories\x27"
          ∧ mainMessages (some (TopConf.plain strs catMissingObs period name)) sampler mS mO draws n
            = .error "Categorical models must have either \x27values\x27 or \x27categories\x27")) :=
  ⟨⟨by decide, by decide, by decide⟩, ⟨by decide, by decide, by decide⟩, ⟨rfl, rfl, rfl⟩,
    C7_build_phase_errors badComponentConf badObsConf catMissingObs
      (UnivariateStructure.locally_constant 1)
      ⟨by decide, by decide, by decide⟩ ⟨by decide, by decide, by decide⟩ ⟨rfl, rfl, rfl⟩⟩


end TimeseriesMock
